import Mathlib

/-!
Shallow embedding of the input-driven UI runtime of the esp32-smart-devices
repository, together with theorems settling the frozen claims about it.

Two subsystems are embedded, each from its C/C++ source:

* `Classifier` — the joystick gesture classifier shared by
  `src/partner-test-firmware/main/main.c` (`read_axis`, `read_input`,
  `state_changed`) and the `JoystickInputModule` of `src/unnamed/part_016`
  (`readAxis`, `processButtons`, `shouldSendUpdate`, `sendJoystickEvent`,
  `runOnce`).  The two sources implement the same axis normalization and
  button-gesture logic; the emission test of `part_016` is the richer one
  (it also compares the context layer) and is the one embedded for the
  emission-policy claims.

* `UI` — the scene-stack / overlay runtime of
  `src/firmware/components/ui/ui.c` (`ui_input`, `ui_launch_app`,
  `ui_go_back`, `ui_go_home`, `ui_tick`, `ui_notify`, `ui_show_dialog`,
  `ui_close_dialog`, `ui_show_osk`, and the three static input handlers).

Machine integers are modelled as `Nat`/`Int`.  Times are `Nat` milliseconds;
the C sources compute elapsed times with `uint32_t` subtraction on a
monotonically increasing millisecond clock, which agrees with `Nat`
subtraction whenever `now` is at least the stored timestamp (always the case
on the monotone clock the firmware reads).  C `int` division and remainder
truncate toward zero and are rendered as `Int.tdiv` / `Int.tmod`.
C function pointers held in configuration records are external code: the
model records whether the owner supplied one (`has…` fields) and logs each
invocation the C code would perform as a trace event, so that "callback is
invoked exactly once" claims become statements about traces.
-/

namespace Classifier

/-- `JOYSTICK_CENTER` from `partner-test-firmware/main/main.c` (also
`src/unnamed/part_013`): calibrated raw center of a 12-bit ADC axis. -/
def JOYSTICK_CENTER : Int := 2048

/-- `JOYSTICK_DEADZONE` from the same sources. -/
def JOYSTICK_DEADZONE : Int := 164

/-- `read_axis` from `src/partner-test-firmware/main/main.c` (lines 108–126);
arithmetically identical to `JoystickInputModule::readAxis` in
`src/unnamed/part_016` (lines 1082–1134): subtract the calibrated center,
zero inside the dead zone, remove the dead-zone width, scale linearly onto
-100..100 with C truncated division, clamp, and optionally invert. -/
def read_axis (raw : Int) (invert : Bool) : Int :=
  let centered := raw - JOYSTICK_CENTER
  if |centered| < JOYSTICK_DEADZONE then 0
  else
    let centered := if centered > 0 then centered - JOYSTICK_DEADZONE
                    else centered + JOYSTICK_DEADZONE
    let normalized := Int.tdiv (centered * 100) (JOYSTICK_CENTER - JOYSTICK_DEADZONE)
    let normalized := if normalized > 100 then 100
                      else if normalized < -100 then -100
                      else normalized
    if invert then -normalized else normalized

/-- Button bitmask bits, from the `JoystickButtons` enum of
`src/unnamed/part_016` and the literals of `read_input`. -/
def BTN_PRESS : Nat := 0x01

def BTN_DOUBLE : Nat := 0x02

def BTN_LONG : Nat := 0x04

/-- Primary-button gesture state of the classifier: the static variables
`s_btn_down_time`, `s_btn_was_pressed`, `s_long_triggered`, `s_press_count`,
`s_last_press_time` of `read_input` in
`src/partner-test-firmware/main/main.c` (equally the member fields of
`JoystickInputModule`). -/
structure BtnState where
  btnDownTime : Nat
  btnWasPressed : Bool
  longTriggered : Bool
  pressCount : Nat
  lastPressTime : Nat
deriving DecidableEq, Repr

/-- The primary-button block of `read_input`
(`src/partner-test-firmware/main/main.c`, lines 156–184; the same statements
appear in `JoystickInputModule::processButtons`): on a down edge record the
down time, clear the long-press latch and bump or reset the press counter
against the 300 ms double-press window; while held emit the press bit and,
once past 700 ms with the latch clear, the long-press bit (setting the
latch); on a release following a hold whose press counter reached 2, emit
the double-press bit.  Returns the updated gesture state and the button
bitmask contributed by the primary button for this sample. -/
def read_input_button (st : BtnState) (now : Nat) (btnPressed : Bool) :
    BtnState × Nat :=
  let st1 :=
    if btnPressed ∧ ¬st.btnWasPressed then
      { st with
        btnDownTime := now
        longTriggered := false
        pressCount := if now - st.lastPressTime < 300 then st.pressCount + 1 else 1
        lastPressTime := now }
    else st
  let p :=
    if btnPressed then
      if ¬st1.longTriggered ∧ now - st1.btnDownTime > 700 then
        ({ st1 with longTriggered := true }, BTN_PRESS ||| BTN_LONG)
      else (st1, BTN_PRESS)
    else (st1, 0)
  let bits :=
    if ¬btnPressed ∧ st1.btnWasPressed ∧ st1.pressCount ≥ 2 then
      p.2 ||| BTN_DOUBLE
    else p.2
  ({ p.1 with btnWasPressed := btnPressed }, bits)

/-- A run of the classifier over successive samples `(now, btnPressed)`,
returning the final gesture state and the primary-button bitmask of each
sample, in order. -/
def runButtons (st : BtnState) : List (Nat × Bool) → BtnState × List Nat
  | [] => (st, [])
  | (now, pressed) :: rest =>
    let step := read_input_button st now pressed
    let r := runButtons step.1 rest
    (r.1, step.2 :: r.2)

/-- The 8-byte joystick event (`joystick_event_t` /
`JoystickEvent`): normalized axes, button bitmask, context layer,
sequence number. -/
structure JoystickEvent where
  x : Int
  y : Int
  buttons : Nat
  layer : Nat
  seq : Nat
deriving DecidableEq, Repr

/-- `JoystickInputModule::shouldSendUpdate` (`src/unnamed/part_016`,
lines 1193–1214): send when the button bitmask differs from the last sent
event, an axis has moved by more than 2 units, or the context layer
differs.  (`state_changed` of `partner-test-firmware` is the same test
minus the layer comparison.) -/
def shouldSendUpdate (currentState lastSentState : JoystickEvent) : Bool :=
  if currentState.buttons ≠ lastSentState.buttons then true
  else if (currentState.x - lastSentState.x).natAbs > 2 then true
  else if (currentState.y - lastSentState.y).natAbs > 2 then true
  else if currentState.layer ≠ lastSentState.layer then true
  else false

/-- `JoystickInputModule::sendJoystickEvent`: stamp the next sequence number
(`++seqCounter`) and the current layer onto the event, transmit it, and
record it as the last sent state.  Returns the transmitted event (which is
also the new `lastSentState`) and the new counter. -/
def sendJoystickEvent (currentState : JoystickEvent) (seqCounter currentLayer : Nat) :
    JoystickEvent × Nat :=
  ({ currentState with seq := seqCounter + 1, layer := currentLayer }, seqCounter + 1)

/-- The emission step at the tail of `JoystickInputModule::runOnce`: after
sampling, an event is sent iff `shouldSendUpdate` holds; the sample time
does not enter the decision.  Returns the emitted event (if any), the new
`lastSentState`, and the new sequence counter. -/
def runOnce_send (currentState lastSentState : JoystickEvent)
    (seqCounter currentLayer : Nat) :
    Option JoystickEvent × JoystickEvent × Nat :=
  if shouldSendUpdate currentState lastSentState then
    let s := sendJoystickEvent currentState seqCounter currentLayer
    (some s.1, s.1, s.2)
  else (none, lastSentState, seqCounter)

end Classifier

namespace UI

/-- Button bit masks from `ui.h` (`src/unnamed/part_011`). -/
def UI_BTN_PRESS : Nat := 0x01

def UI_BTN_DOUBLE : Nat := 0x02

def UI_BTN_LONG : Nat := 0x04

def UI_BTN_HOME : Nat := 0x08

def UI_BTN_BACK : Nat := 0x10

/-- `UI_MAX_APPS` from `ui.h`. -/
def UI_MAX_APPS : Nat := 16

/-- `UI_MAX_SCENE_STACK` from `ui.h`. -/
def UI_MAX_SCENE_STACK : Nat := 8

/-- `UI_NOTIFY_HEIGHT` from `ui.h`. -/
def UI_NOTIFY_HEIGHT : Int := 12

/-- The `esp_err_t` values `ui.c` actually returns. -/
inductive EspErr where
  | ok
  | invalidArg
  | noMem
  | notFound
deriving DecidableEq, Repr

/-- A registered application (`ui_app_t`): its identifier plus which of the
optional function-pointer callbacks the owner supplied.  The callbacks are
external code; their invocations are recorded as trace events. -/
structure App where
  id : String
  hasOnEnter : Bool
  hasOnExit : Bool
  hasOnInput : Bool
  hasOnTick : Bool
deriving DecidableEq, Repr

/-- A scene-stack entry (`ui_scene_t`): the main menu or a running app. -/
inductive Scene where
  | menu
  | app (a : App)
deriving DecidableEq, Repr

/-- `ui_notification_t`.  `title`/`body` are nullable C strings; `ui_notify`
rejects a null title.  `on_tap` is an optional callback. -/
structure Notification where
  title : Option String
  body : Option String
  priority : Nat
  duration_ms : Nat
  hasOnTap : Bool
deriving DecidableEq, Repr

/-- `notify_state_t`: the single notification slot. -/
structure NotifyState where
  active : Bool
  notif : Notification
  show_time : Nat
  y_offset : Int
deriving DecidableEq, Repr

/-- One dialog button (`ui_dialog_btn_t`): whether an `on_click` callback was
supplied (its label is render-only). -/
structure DialogBtn where
  hasOnClick : Bool
deriving DecidableEq, Repr

/-- `ui_dialog_t`: the button list stands for the `buttons[3]` array together
with `button_count`. -/
structure Dialog where
  buttons : List DialogBtn
  default_button : Nat
deriving DecidableEq, Repr

/-- `dialog_state_t`: the single modal-dialog slot. -/
structure DialogState where
  active : Bool
  dialog : Dialog
  selected : Nat
deriving DecidableEq, Repr

/-- `ui_osk_config_t`.  `ui_show_osk` rejects a null callback, so
`hasCallback` records whether one was supplied. -/
structure OskConfig where
  title : Option String
  initial_text : Option (List Char)
  max_length : Nat
  password_mode : Bool
  hasCallback : Bool
deriving DecidableEq, Repr

/-- `osk_state_t`: the 128-byte text buffer is modelled as the character
list `buffer` (the NUL-terminated prefix the C code maintains), together
with the `cursor` index and the key-grid cursor. -/
structure OskState where
  active : Bool
  config : OskConfig
  buffer : List Char
  cursor : Nat
  key_row : Nat
  key_col : Nat
deriving DecidableEq, Repr

/-- Trace events: one per external callback invocation `ui.c` performs. -/
inductive Ev where
  | appEnter (id : String)
  | appExit (id : String)
  | appInput (id : String) (x y : Int) (buttons : Nat)
  | oskCallback (text : Option (List Char)) (confirmed : Bool)
  | dialogClick (idx : Nat)
  | notifyTap
  | appTick (id : String) (dt : Nat)
deriving DecidableEq, Repr

/-- Whether a trace event is a Scene-level callback invocation (an
application input/enter/exit call, the calls the scene stack owns). -/
def Ev.isSceneCall : Ev → Bool
  | .appEnter _ => true
  | .appExit _ => true
  | .appInput _ _ _ _ => true
  | _ => false

/-- Whether a trace event is an OSK completion-callback invocation. -/
def Ev.isOskCallback : Ev → Bool
  | .oskCallback _ _ => true
  | _ => false

/-- Whether a trace event is a dialog button-callback invocation. -/
def Ev.isDialogClick : Ev → Bool
  | .dialogClick _ => true
  | _ => false

/-- The static module state of `ui.c`: registered apps, the scene stack
(head of the list = `s_scene_stack[s_scene_top]`, last element = index 0),
`s_status.unread_notifications` (the only status field `ui.c` itself
mutates), the three overlay slots, the menu cursor, the input-edge state,
and the six static-local debounce timestamps of the input handlers. -/
structure UIState where
  apps : List App
  sceneStack : List Scene
  status_unread : Nat
  notify : NotifyState
  dialog : DialogState
  osk : OskState
  menu_selected : Int
  menu_scroll : Int
  last_buttons : Nat
  last_input_time : Nat
  menu_last_nav : Nat
  menu_last_press : Nat
  dialog_last_nav : Nat
  dialog_last_press : Nat
  osk_last_nav : Nat
  osk_last_press : Nat
deriving DecidableEq, Repr

/-- `ui_register_app` (null-pointer checks aside: a present `App` has a
non-null id and name): append to the registry unless full. -/
def ui_register_app (s : UIState) (app : App) : UIState × EspErr :=
  if s.apps.length ≥ UI_MAX_APPS then (s, .noMem)
  else ({ s with apps := s.apps ++ [app] }, .ok)

/-- `ui_launch_app` (`ui.c` lines 132–164): look the id up in registration
order; `ESP_ERR_NOT_FOUND` if absent; `ESP_ERR_NO_MEM` if
`s_scene_top >= UI_MAX_SCENE_STACK - 1` (stack already holds 8 scenes);
otherwise push the app scene and call its `on_enter` if supplied. -/
def ui_launch_app (s : UIState) (app_id : String) : UIState × List Ev × EspErr :=
  match s.apps.find? (fun a => a.id == app_id) with
  | none => (s, [], .notFound)
  | some app =>
    if s.sceneStack.length ≥ UI_MAX_SCENE_STACK then (s, [], .noMem)
    else
      ({ s with sceneStack := Scene.app app :: s.sceneStack },
       if app.hasOnEnter then [Ev.appEnter app.id] else [], .ok)

/-- `ui_go_back`: no-op at or below the menu level; otherwise call the
top app's `on_exit` (if supplied) and pop. -/
def ui_go_back (s : UIState) : UIState × List Ev :=
  match s.sceneStack with
  | [] => (s, [])
  | [_] => (s, [])
  | top :: rest =>
    ({ s with sceneStack := rest },
     match top with
     | .app a => if a.hasOnExit then [Ev.appExit a.id] else []
     | .menu => [])

/-- The `while (s_scene_top > 0) ui_go_back();` loop of `ui_go_home`,
with the stack depth as fuel. -/
def ui_go_home_loop : Nat → UIState → UIState × List Ev
  | 0, s => (s, [])
  | fuel + 1, s =>
    if s.sceneStack.length ≤ 1 then (s, [])
    else
      let p := ui_go_back s
      let r := ui_go_home_loop fuel p.1
      (r.1, p.2 ++ r.2)

/-- `ui_go_home`: pop (with exit callbacks) until only the menu remains. -/
def ui_go_home (s : UIState) : UIState × List Ev :=
  ui_go_home_loop s.sceneStack.length s

/-- `ui_notify` (`ui.c` lines 336–353): reject a null title; otherwise
replace the notification slot, record the show time, start the slide-in,
and increment the unread counter unless it is already 255. -/
def ui_notify (s : UIState) (now : Nat) (notif : Notification) : UIState × EspErr :=
  if notif.title.isNone then (s, .invalidArg)
  else
    ({ s with
        notify := { active := true, notif := notif, show_time := now,
                    y_offset := -UI_NOTIFY_HEIGHT },
        status_unread :=
          if s.status_unread < 255 then s.status_unread + 1 else s.status_unread },
     .ok)

/-- `ui_notify_dismiss`: clear the active flag (nothing else). -/
def ui_notify_dismiss (s : UIState) : UIState :=
  { s with notify := { s.notify with active := false } }

/-- `ui_show_dialog`: reject a zero button count; otherwise replace the
dialog slot and select the default button.  No callback of a replaced
dialog is invoked, hence the empty trace. -/
def ui_show_dialog (s : UIState) (dialog : Dialog) : UIState × List Ev × EspErr :=
  if dialog.buttons.length = 0 then (s, [], .invalidArg)
  else
    ({ s with dialog := { active := true, dialog := dialog,
                          selected := dialog.default_button } },
     [], .ok)

/-- `ui_close_dialog`: clear the active flag (no callback). -/
def ui_close_dialog (s : UIState) : UIState :=
  { s with dialog := { s.dialog with active := false } }

/-- `ui_show_osk` (`ui.c` lines 398–418): reject a missing callback;
otherwise replace the OSK slot, seed the buffer with at most 127 characters
of the initial text (`strncpy` into the 128-byte buffer), put the cursor at
the end of the text and the key cursor at row 1, column 4.  No callback of
a replaced OSK session is invoked, hence the empty trace. -/
def ui_show_osk (s : UIState) (config : OskConfig) : UIState × List Ev × EspErr :=
  if ¬config.hasCallback then (s, [], .invalidArg)
  else
    let buffer := match config.initial_text with
      | some t => t.take 127
      | none => []
    ({ s with osk := { active := true, config := config, buffer := buffer,
                       cursor := buffer.length, key_row := 1, key_col := 4 } },
     [], .ok)

/-- `ui_osk_active`. -/
def ui_osk_active (s : UIState) : Bool :=
  s.osk.active

/-- The OSK key grid of `handle_osk_input` / `render_osk`
(`<` = backspace, `>` = confirm). -/
def osk_keys : List (List Char) :=
  ["1234567890".toList, "QWERTYUIOP".toList, "ASDFGHJKL".toList, "ZXCVBNM <>".toList]

/-- The effective OSK length bound of the append branch of
`handle_osk_input`: `config.max_length`, or `sizeof(buffer) - 1 = 127`
when the configured value is 0. -/
def osk_max_len (config : OskConfig) : Nat :=
  if config.max_length ≠ 0 then config.max_length else 127

/-- The grid-navigation block of `handle_osk_input` (`ui.c` lines 698–735):
debounced at 120 ms; left/right wrap within the current row, up/down wrap
over the four rows and clamp the column into the new row's width.  The
key-grid indices stay inside the grid, matching the C `int8_t` arithmetic
on in-range values; `getD` renders the C array reads. -/
def handle_osk_nav (s : UIState) (now : Nat) (x y : Int) : UIState :=
  if now - s.osk_last_nav > 120 then
    let row_len := (osk_keys.getD s.osk.key_row []).length
    if x > 30 then
      { s with osk := { s.osk with key_col := (s.osk.key_col + 1) % row_len },
               osk_last_nav := now }
    else if x < -30 then
      { s with osk := { s.osk with key_col := (s.osk.key_col + row_len - 1) % row_len },
               osk_last_nav := now }
    else if y > 30 then
      let r := (s.osk.key_row + 3) % 4
      let new_row_len := (osk_keys.getD r []).length
      let c := if s.osk.key_col ≥ new_row_len then new_row_len - 1 else s.osk.key_col
      { s with osk := { s.osk with key_row := r, key_col := c },
               osk_last_nav := now }
    else if y < -30 then
      let r := (s.osk.key_row + 1) % 4
      let new_row_len := (osk_keys.getD r []).length
      let c := if s.osk.key_col ≥ new_row_len then new_row_len - 1 else s.osk.key_col
      { s with osk := { s.osk with key_row := r, key_col := c },
               osk_last_nav := now }
    else s
  else s

/-- The key-activation block of `handle_osk_input` (`ui.c` lines 737–765):
on the press bit, debounced at 200 ms, the selected key is backspace
(`<`), confirm (`>`: deactivate and invoke the callback with the buffer
and `true`), or a character appended when the cursor is below the
effective length bound. -/
def handle_osk_press (s : UIState) (now : Nat) (buttons : Nat) :
    UIState × List Ev :=
  if buttons &&& UI_BTN_PRESS ≠ 0 then
    if now - s.osk_last_press > 200 then
      let key := (osk_keys.getD s.osk.key_row []).getD s.osk.key_col ' '
      if key = '<' then
        let s :=
          if s.osk.cursor > 0 then
            let b := s.osk.buffer.take (s.osk.cursor - 1)
            { s with osk := { s.osk with cursor := s.osk.cursor - 1, buffer := b } }
          else s
        ({ s with osk_last_press := now }, [])
      else if key = '>' then
        ({ s with osk := { s.osk with active := false }, osk_last_press := now },
         if s.osk.config.hasCallback then [Ev.oskCallback (some s.osk.buffer) true]
         else [])
      else
        let s :=
          if s.osk.cursor < osk_max_len s.osk.config then
            let b := s.osk.buffer ++ [key]
            { s with osk := { s.osk with buffer := b, cursor := s.osk.cursor + 1 } }
          else s
        ({ s with osk_last_press := now }, [])
    else (s, [])
  else (s, [])

/-- `handle_osk_input` (`ui.c` lines 698–765): the navigation block followed
by the key-activation block. -/
def handle_osk_input (s : UIState) (now : Nat) (x y : Int) (buttons : Nat) :
    UIState × List Ev :=
  handle_osk_press (handle_osk_nav s now x y) now buttons

/-- The navigation block of `handle_dialog_input` (`ui.c` lines 671–684):
left/right over the buttons, debounced at 150 ms. -/
def handle_dialog_nav (s : UIState) (now : Nat) (x : Int) : UIState :=
  if now - s.dialog_last_nav > 150 then
    let n := s.dialog.dialog.buttons.length
    if x > 30 then
      { s with dialog := { s.dialog with selected := (s.dialog.selected + 1) % n },
               dialog_last_nav := now }
    else if x < -30 then
      { s with dialog := { s.dialog with selected := (s.dialog.selected + n - 1) % n },
               dialog_last_nav := now }
    else s
  else s

/-- The confirm block of `handle_dialog_input` (`ui.c` lines 686–696): on
the press bit, debounced at 300 ms, invoke the selected button's `on_click`
if supplied and close the dialog. -/
def handle_dialog_press (s : UIState) (now : Nat) (buttons : Nat) :
    UIState × List Ev :=
  if buttons &&& UI_BTN_PRESS ≠ 0 then
    if now - s.dialog_last_press > 300 then
      let evs :=
        if (s.dialog.dialog.buttons.getD s.dialog.selected ⟨false⟩).hasOnClick then
          [Ev.dialogClick s.dialog.selected]
        else []
      ({ s with dialog := { s.dialog with active := false },
                dialog_last_press := now }, evs)
    else (s, [])
  else (s, [])

/-- `handle_dialog_input` (`ui.c` lines 671–697): navigation then confirm. -/
def handle_dialog_input (s : UIState) (now : Nat) (x y : Int) (buttons : Nat) :
    UIState × List Ev :=
  handle_dialog_press (handle_dialog_nav s now x) now buttons

/-- The navigation block of `handle_menu_input` (`ui.c` lines 640–658):
a 4-column grid over at most 8 visible items, debounced at 150 ms — the C
arithmetic is on `int`, so truncated `Int.tmod` renders the `%`. -/
def handle_menu_nav (s : UIState) (now : Nat) (x y : Int) : UIState :=
  let cols : Int := 4
  let max_items : Int := if (s.apps.length : Int) < 8 then (s.apps.length : Int) else 8
  if now - s.menu_last_nav > 150 then
    if x > 30 then
      { s with menu_selected := Int.tmod (s.menu_selected + 1) max_items,
               menu_last_nav := now }
    else if x < -30 then
      { s with menu_selected := Int.tmod (s.menu_selected - 1 + max_items) max_items,
               menu_last_nav := now }
    else if y > 30 then
      { s with menu_selected := Int.tmod (s.menu_selected - cols + max_items) max_items,
               menu_last_nav := now }
    else if y < -30 then
      { s with menu_selected := Int.tmod (s.menu_selected + cols) max_items,
               menu_last_nav := now }
    else s
  else s

/-- The select block of `handle_menu_input` (`ui.c` lines 660–669): on the
press bit, debounced at 300 ms, launch the selected app when the selection
is a valid registry index. -/
def handle_menu_press (s : UIState) (now : Nat) (buttons : Nat) :
    UIState × List Ev :=
  if buttons &&& UI_BTN_PRESS ≠ 0 then
    if now - s.menu_last_press > 300 then
      if 0 ≤ s.menu_selected ∧ s.menu_selected < (s.apps.length : Int) then
        let d : App := ⟨"", false, false, false, false⟩
        let r := ui_launch_app s (s.apps.getD s.menu_selected.toNat d).id
        ({ r.1 with menu_last_press := now }, r.2.1)
      else ({ s with menu_last_press := now }, [])
    else (s, [])
  else (s, [])

/-- `handle_menu_input` (`ui.c` lines 633–670): nothing with an empty
registry; otherwise navigation then select. -/
def handle_menu_input (s : UIState) (now : Nat) (x y : Int) (buttons : Nat) :
    UIState × List Ev :=
  if s.apps.length = 0 then (s, [])
  else handle_menu_press (handle_menu_nav s now x y) now buttons

/-- The rising-edge mask `ui_input` computes:
`buttons & ~s_last_buttons` on `uint8_t` values. -/
def pressedOf (s : UIState) (buttons : Nat) : Nat :=
  (buttons % 256) &&& (255 - s.last_buttons % 256)

/-- `ui_input` (`ui.c` lines 190–255).  Routing order as in the source:
Home edge (cancel OSK / close dialog / go home), Back edge (cancel OSK /
close dialog / go back), notification dismiss on a press edge (invoking the
optional tap callback), then OSK, then dialog, then the top scene (menu
handling or the app's `on_input`). -/
def ui_input (s : UIState) (now : Nat) (x y : Int) (buttons : Nat) :
    UIState × List Ev :=
  let pressed := pressedOf s buttons
  let s := { s with last_buttons := buttons % 256, last_input_time := now }
  if pressed &&& UI_BTN_HOME ≠ 0 then
    if s.osk.active then
      ({ s with osk := { s.osk with active := false } },
       if s.osk.config.hasCallback then [Ev.oskCallback none false] else [])
    else if s.dialog.active then
      (ui_close_dialog s, [])
    else ui_go_home s
  else if pressed &&& UI_BTN_BACK ≠ 0 then
    if s.osk.active then
      ({ s with osk := { s.osk with active := false } },
       if s.osk.config.hasCallback then [Ev.oskCallback none false] else [])
    else if s.dialog.active then
      (ui_close_dialog s, [])
    else ui_go_back s
  else if s.notify.active ∧ pressed &&& UI_BTN_PRESS ≠ 0 then
    (ui_notify_dismiss s, if s.notify.notif.hasOnTap then [Ev.notifyTap] else [])
  else if s.osk.active then
    handle_osk_input s now x y buttons
  else if s.dialog.active then
    handle_dialog_input s now x y buttons
  else
    match s.sceneStack.head? with
    | some .menu => handle_menu_input s now x y buttons
    | some (.app a) =>
      if a.hasOnInput then (s, [Ev.appInput a.id x y buttons]) else (s, [])
    | none => (s, [])

/-- `ui_tick` (`ui.c` lines 285–311): advance the notification slide-in,
auto-dismiss once the elapsed time exceeds the configured duration
(3000 ms when `duration_ms` is 0), then deliver the background tick to
every registered app that supplied one. -/
def ui_tick (s : UIState) (now : Nat) (dt_ms : Nat) : UIState × List Ev :=
  let s :=
    if s.notify.active then
      let elapsed := now - s.notify.show_time
      let s :=
        if elapsed < 200 then
          { s with notify := { s.notify with
              y_offset := -UI_NOTIFY_HEIGHT + UI_NOTIFY_HEIGHT * (elapsed : Int) / 200 } }
        else
          { s with notify := { s.notify with y_offset := 0 } }
      let duration := if s.notify.notif.duration_ms ≠ 0 then s.notify.notif.duration_ms
                      else 3000
      if elapsed > duration then ui_notify_dismiss s else s
    else s
  (s, s.apps.filterMap fun a => if a.hasOnTick then some (Ev.appTick a.id dt_ms) else none)

/-- The module state right after `ui_init` on a freshly loaded image: all
static variables zero-initialized, then `ui_init` clears the registry and
overlay slots and seeds the scene stack with the menu. -/
def ui_init_state : UIState :=
  ⟨[], [Scene.menu], 0,
   ⟨false, ⟨none, none, 0, 0, false⟩, 0, 0⟩,
   ⟨false, ⟨[], 0⟩, 0⟩,
   ⟨false, ⟨none, none, 0, false, false⟩, [], 0, 0, 0⟩,
   0, 0, 0, 0, 0, 0, 0, 0, 0, 0⟩

/-- Fixture: a "notes" application with all four main callbacks supplied. -/
def notesApp : App := ⟨"notes", true, true, true, false⟩

/-- Fixture: the fresh state with `notesApp` registered. -/
def regState : UIState := { ui_init_state with apps := [notesApp] }

/-- Fixture: a notification with a title and a tap callback. -/
def exNotif : Notification := ⟨some "X", none, 1, 0, true⟩

/-- Fixture: an OSK configuration with a callback and `max_length = 0`
(defaulting to the 127-character bound). -/
def exOskCfg : OskConfig := ⟨none, none, 0, false, true⟩

/-- Fixture: an OSK configuration with a callback and `max_length = 5`. -/
def exOskCfg5 : OskConfig := ⟨none, none, 5, false, true⟩

/-- Fixture: state with an active OSK session (buffer "A") and an active
notification carrying a tap callback, `notesApp` on top of the menu. -/
def oskNotifState : UIState :=
  { regState with
    sceneStack := [Scene.app notesApp, Scene.menu]
    osk := ⟨true, exOskCfg, ['A'], 1, 1, 4⟩
    notify := ⟨true, exNotif, 0, 0⟩ }

/-- Fixture: state with an active two-button dialog (both buttons carrying
`on_click` callbacks) over `notesApp`. -/
def dialogState : UIState :=
  { regState with
    sceneStack := [Scene.app notesApp, Scene.menu]
    dialog := ⟨true, ⟨[⟨true⟩, ⟨true⟩], 0⟩, 0⟩ }

/-- Fixture: an active OSK session with `max_length = 5` whose buffer
already holds five characters, key cursor on the letter T (row 1, col 4). -/
def oskFullState : UIState :=
  { regState with
    sceneStack := [Scene.app notesApp, Scene.menu]
    osk := ⟨true, exOskCfg5, ['A', 'B', 'C', 'D', 'E'], 5, 1, 4⟩ }

end UI

/-- Helper: inside the dead zone `read_axis` returns exactly 0. -/
theorem read_axis_deadzone (raw : Int) (invert : Bool)
    (h : |raw - Classifier.JOYSTICK_CENTER| < Classifier.JOYSTICK_DEADZONE) :
    Classifier.read_axis raw invert = 0 := by
  unfold Classifier.read_axis
  simp [h]

/-- Helper: `read_axis` output is always within [-100, 100]. -/
theorem read_axis_range (raw : Int) (invert : Bool) :
    -100 ≤ Classifier.read_axis raw invert ∧ Classifier.read_axis raw invert ≤ 100 := by
  unfold Classifier.read_axis
  split_ifs <;> constructor <;> simp_all <;> omega

/-- C7: for every raw axis sample, the normalized output is exactly 0
whenever the centered value's magnitude is below the dead-zone threshold,
and for every possible raw input value (and either inversion setting) the
output lies within [-100, 100] inclusive. -/
theorem claim_C7 (raw : Int) (invert : Bool) :
    (|raw - Classifier.JOYSTICK_CENTER| < Classifier.JOYSTICK_DEADZONE →
      Classifier.read_axis raw invert = 0)
    ∧ -100 ≤ Classifier.read_axis raw invert
    ∧ Classifier.read_axis raw invert ≤ 100 :=
  ⟨read_axis_deadzone raw invert, (read_axis_range raw invert).1,
   (read_axis_range raw invert).2⟩

/-- Witness for C7 at concrete raw samples: 2100 is 52 counts off center
(inside the ±164 dead zone) and classifies to 0; the extreme raw values 0
and 4095 classify into [-100, 100]. -/
theorem claim_C7_witness :
    (|(2100 : Int) - Classifier.JOYSTICK_CENTER| < Classifier.JOYSTICK_DEADZONE ∧
      Classifier.read_axis 2100 false = 0)
    ∧ (-100 ≤ Classifier.read_axis 0 true ∧ Classifier.read_axis 0 true ≤ 100)
    ∧ (-100 ≤ Classifier.read_axis 4095 false ∧ Classifier.read_axis 4095 false ≤ 100) :=
  ⟨⟨by decide, (claim_C7 2100 false).1 (by decide)⟩,
   ⟨(claim_C7 0 true).2.1, (claim_C7 0 true).2.2⟩,
   ⟨(claim_C7 4095 false).2.1, (claim_C7 4095 false).2.2⟩⟩

/-- C3, counterexample to the keep-alive clause: on a sample tick where
nothing changed relative to the last emitted event, `runOnce` emits no
event — the decision (`shouldSendUpdate`) takes no time input at all, so no
event is emitted no matter how much more than 100 ms has elapsed since the
last emission, refuting "an event is emitted at least every ~100 ms even
when nothing changes". -/
theorem claim_C3_counterexample :
    Classifier.runOnce_send ⟨0, 0, 0, 0, 7⟩ ⟨0, 0, 0, 0, 7⟩ 7 0 =
      (none, ⟨0, 0, 0, 0, 7⟩, 7) := by
  decide

/-- C3 as amended: on every classifier sample tick an event is emitted iff,
relative to the last emitted event, the button bitmask differs, an axis has
moved by more than the 2-unit hysteresis, or the context layer differs —
there is no keep-alive emission — and the sequence number increments by
exactly one on every emission (and is untouched when nothing is sent). -/
theorem claim_C3_amended (cur last : Classifier.JoystickEvent) (seqC layer : Nat) :
    (Classifier.shouldSendUpdate cur last = true ↔
      (cur.buttons ≠ last.buttons ∨ (cur.x - last.x).natAbs > 2 ∨
       (cur.y - last.y).natAbs > 2 ∨ cur.layer ≠ last.layer))
    ∧ (∀ e, (Classifier.runOnce_send cur last seqC layer).1 = some e →
        e.seq = seqC + 1 ∧ (Classifier.runOnce_send cur last seqC layer).2.2 = seqC + 1)
    ∧ ((Classifier.runOnce_send cur last seqC layer).1 = none →
        (Classifier.runOnce_send cur last seqC layer).2.2 = seqC) := by
  refine ⟨?_, ?_, ?_⟩
  · unfold Classifier.shouldSendUpdate
    split_ifs <;> simp_all
  · intro e he
    unfold Classifier.runOnce_send Classifier.sendJoystickEvent at he ⊢
    split_ifs at he ⊢ <;> simp_all
    subst he
    rfl
  · intro hn
    unfold Classifier.runOnce_send at hn ⊢
    split_ifs at hn ⊢ <;> simp_all [Classifier.sendJoystickEvent]

/-- Witness for C3 as amended: a button change triggers emission and the
sequence number goes from 3 to 4. -/
theorem claim_C3_amended_witness :
    Classifier.shouldSendUpdate ⟨5, 0, 1, 0, 0⟩ ⟨0, 0, 0, 0, 0⟩ = true
    ∧ (Classifier.runOnce_send ⟨5, 0, 1, 0, 0⟩ ⟨0, 0, 0, 0, 0⟩ 3 0).1 = some ⟨5, 0, 1, 0, 4⟩
    ∧ (⟨5, 0, 1, 0, 4⟩ : Classifier.JoystickEvent).seq = 3 + 1
    ∧ (Classifier.runOnce_send ⟨5, 0, 1, 0, 0⟩ ⟨0, 0, 0, 0, 0⟩ 3 0).2.2 = 3 + 1 :=
  ⟨(claim_C3_amended ⟨5, 0, 1, 0, 0⟩ ⟨0, 0, 0, 0, 0⟩ 3 0).1.mpr (Or.inl (by decide)),
   by decide,
   ((claim_C3_amended ⟨5, 0, 1, 0, 0⟩ ⟨0, 0, 0, 0, 0⟩ 3 0).2.1 ⟨5, 0, 1, 0, 4⟩ (by decide)).1,
   ((claim_C3_amended ⟨5, 0, 1, 0, 0⟩ ⟨0, 0, 0, 0, 0⟩ 3 0).2.1 ⟨5, 0, 1, 0, 4⟩ (by decide)).2⟩

/-- Helper: during a continuous hold (every sample pressed, the down edge
already processed so `btnWasPressed` is set and `btnDownTime` is the
down-edge time `t0`), the number of samples whose bitmask carries the
long-press bit is 1 exactly when the latch is still clear and some sample
falls more than 700 ms after the down edge, and 0 otherwise. -/
theorem runButtons_hold (t0 : Nat) (ts : List Nat) (st : Classifier.BtnState)
    (hw : st.btnWasPressed = true) (hd : st.btnDownTime = t0) :
    (Classifier.runButtons st (ts.map fun t => (t, true))).2.countP
        (fun b => b.testBit 2) =
      if st.longTriggered = false ∧ ∃ t ∈ ts, t0 + 700 < t then 1 else 0 := by
  induction ts generalizing st with
  | nil => simp [Classifier.runButtons]
  | cons t ts ih =>
    obtain ⟨dt, wp, lt, pc, lp⟩ := st
    simp only at hw hd
    subst hw
    subst dt
    by_cases hL : lt
    · have hstep : Classifier.read_input_button ⟨t0, true, lt, pc, lp⟩ t true =
          (⟨t0, true, lt, pc, lp⟩, Classifier.BTN_PRESS) := by
        unfold Classifier.read_input_button
        simp [hL]
      simp only [List.map_cons, Classifier.runButtons, hstep]
      rw [List.countP_cons]
      rw [ih ⟨t0, true, lt, pc, lp⟩ rfl rfl]
      simp [Classifier.BTN_PRESS, hL, (by decide : Nat.testBit 1 2 = false)]
    · by_cases hc : t0 + 700 < t
      · have hstep : Classifier.read_input_button ⟨t0, true, lt, pc, lp⟩ t true =
            (⟨t0, true, true, pc, lp⟩, Classifier.BTN_PRESS ||| Classifier.BTN_LONG) := by
          unfold Classifier.read_input_button
          have h7 : t - t0 > 700 := by omega
          simp [hL, h7]
        simp only [List.map_cons, Classifier.runButtons, hstep]
        rw [List.countP_cons]
        rw [ih ⟨t0, true, true, pc, lp⟩ rfl rfl]
        simp only [Bool.not_eq_true] at hL
        simp [Classifier.BTN_PRESS, Classifier.BTN_LONG, hL, hc,
          (by decide : Nat.testBit 5 2 = true)]
      · have hstep : Classifier.read_input_button ⟨t0, true, lt, pc, lp⟩ t true =
            (⟨t0, true, lt, pc, lp⟩, Classifier.BTN_PRESS) := by
          unfold Classifier.read_input_button
          have h7 : ¬(t - t0 > 700) := by omega
          simp [hL, h7]
        simp only [List.map_cons, Classifier.runButtons, hstep]
        rw [List.countP_cons]
        rw [ih ⟨t0, true, lt, pc, lp⟩ rfl rfl]
        simp only [Bool.not_eq_true] at hL
        simp [Classifier.BTN_PRESS, hL, hc, (by decide : Nat.testBit 1 2 = false)]

/-- C5: over any single continuous hold of the primary button (a down-edge
sample at `t0` followed by pressed samples at the times in `rest`), the
long-press bit is set on exactly one sample when the hold is observed more
than 700 ms past the down edge, and on no sample otherwise — never on two,
no matter how much longer the button stays held.  In addition, the latch:
it survives every sample that is not a down edge, and a down edge resets
it (with the same sample unable to re-fire, since its hold time is 0). -/
theorem claim_C5 (st0 : Classifier.BtnState) (t0 : Nat) (rest : List Nat)
    (hw : st0.btnWasPressed = false) :
    ((Classifier.runButtons st0 ((t0, true) :: rest.map fun t => (t, true))).2.countP
        (fun b => b.testBit 2) =
      if ∃ t ∈ rest, t0 + 700 < t then 1 else 0)
    ∧ (∀ st : Classifier.BtnState, ∀ now : Nat, ∀ pressed : Bool,
        st.longTriggered = true → (pressed = true → st.btnWasPressed = true) →
        (Classifier.read_input_button st now pressed).1.longTriggered = true)
    ∧ (∀ st : Classifier.BtnState, ∀ now : Nat, st.btnWasPressed = false →
        (Classifier.read_input_button st now true).1.longTriggered = false) := by
  refine ⟨?_, ?_, ?_⟩
  · have hstep : Classifier.read_input_button st0 t0 true =
        ({ btnDownTime := t0, btnWasPressed := true, longTriggered := false,
           pressCount := if t0 - st0.lastPressTime < 300 then st0.pressCount + 1 else 1,
           lastPressTime := t0 }, Classifier.BTN_PRESS) := by
      unfold Classifier.read_input_button
      simp [hw]
    simp only [Classifier.runButtons, hstep]
    rw [List.countP_cons]
    have := runButtons_hold t0 rest
      { btnDownTime := t0, btnWasPressed := true, longTriggered := false,
        pressCount := if t0 - st0.lastPressTime < 300 then st0.pressCount + 1 else 1,
        lastPressTime := t0 } rfl rfl
    rw [this]
    simp [Classifier.BTN_PRESS, (by decide : Nat.testBit 1 2 = false)]
  · intro st now pressed hL hnoedge
    unfold Classifier.read_input_button
    cases pressed with
    | false => simp [hL]
    | true => simp [hnoedge rfl, hL]
  · intro st now hw'
    unfold Classifier.read_input_button
    simp [hw']

/-- Witness for C5: from an idle state, a hold sampled at 0, 400 and 800 ms
(observed past the 700 ms threshold) fires the long-press bit exactly once;
the latch survives a non-edge sample and a fresh down edge clears it. -/
theorem claim_C5_witness :
    ((⟨0, false, false, 0, 0⟩ : Classifier.BtnState).btnWasPressed = false)
    ∧ ((Classifier.runButtons ⟨0, false, false, 0, 0⟩
          ((0, true) :: [400, 800].map fun t => (t, true))).2.countP
        (fun b => b.testBit 2) = if ∃ t ∈ [400, 800], 0 + 700 < t then 1 else 0)
    ∧ (Classifier.read_input_button ⟨0, true, true, 1, 0⟩ 900 true).1.longTriggered = true
    ∧ (Classifier.read_input_button ⟨0, false, true, 1, 0⟩ 900 true).1.longTriggered = false :=
  ⟨rfl,
   (claim_C5 ⟨0, false, false, 0, 0⟩ 0 [400, 800] rfl).1,
   (claim_C5 ⟨0, false, false, 0, 0⟩ 0 [400, 800] rfl).2.1
     ⟨0, true, true, 1, 0⟩ 900 true rfl (fun _ => rfl),
   (claim_C5 ⟨0, false, false, 0, 0⟩ 0 [400, 800] rfl).2.2 ⟨0, false, true, 1, 0⟩ 900 rfl⟩

/-- C6: starting from an idle gesture state (button up, last press at least
300 ms in the past), a press at `t1`, release at `t2`, second press at `t3`
within the 300 ms double-press window of the first down edge, release at
`t4` and one further idle sample at `t5` produce the double-press bit on
the release sample of the second press and on no other sample; and a
single isolated press/release never sets the double-press bit. -/
theorem claim_C6 (st0 : Classifier.BtnState) (t1 t2 t3 t4 t5 : Nat)
    (hw : st0.btnWasPressed = false)
    (hiso : st0.lastPressTime + 300 ≤ t1)
    (hdbl : t3 < t1 + 300) :
    ((Classifier.runButtons st0
        [(t1, true), (t2, false), (t3, true), (t4, false), (t5, false)]).2.map
        (fun b => b.testBit 1) = [false, false, false, true, false])
    ∧ ((Classifier.runButtons st0 [(t1, true), (t2, false)]).2.map
        (fun b => b.testBit 1) = [false, false]) := by
  obtain ⟨dt, wp, lt, pc, lp⟩ := st0
  simp only at hw hiso
  subst hw
  have e1 : ¬(t1 - lp < 300) := by omega
  have e3 : t3 - t1 < 300 := by omega
  have h1 : Classifier.read_input_button ⟨dt, false, lt, pc, lp⟩ t1 true =
      (⟨t1, true, false, 1, t1⟩, 1) := by
    unfold Classifier.read_input_button
    simp [e1, Classifier.BTN_PRESS]
  have h2 : Classifier.read_input_button ⟨t1, true, false, 1, t1⟩ t2 false =
      (⟨t1, false, false, 1, t1⟩, 0) := by
    unfold Classifier.read_input_button
    simp
  have h3 : Classifier.read_input_button ⟨t1, false, false, 1, t1⟩ t3 true =
      (⟨t3, true, false, 2, t3⟩, 1) := by
    unfold Classifier.read_input_button
    simp [e3, Classifier.BTN_PRESS]
  have h4 : Classifier.read_input_button ⟨t3, true, false, 2, t3⟩ t4 false =
      (⟨t3, false, false, 2, t3⟩, 2) := by
    unfold Classifier.read_input_button
    simp [Classifier.BTN_DOUBLE]
  have h5 : Classifier.read_input_button ⟨t3, false, false, 2, t3⟩ t5 false =
      (⟨t3, false, false, 2, t3⟩, 0) := by
    unfold Classifier.read_input_button
    simp
  constructor
  · simp only [Classifier.runButtons, h1, h2, h3, h4, h5]
    simp [(by decide : Nat.testBit 1 1 = false), (by decide : Nat.testBit 0 1 = false),
      (by decide : Nat.testBit 2 1 = true)]
  · simp only [Classifier.runButtons, h1, h2]
    simp [(by decide : Nat.testBit 1 1 = false), (by decide : Nat.testBit 0 1 = false)]

/-- Witness for C6: presses at 1000 and 1200 ms (within the 300 ms window)
released at 1100 and 1300 ms, from the zero-initialized gesture state with
a first press at least 300 ms after time 0. -/
theorem claim_C6_witness :
    ((⟨0, false, false, 0, 500⟩ : Classifier.BtnState).btnWasPressed = false
      ∧ (⟨0, false, false, 0, 500⟩ : Classifier.BtnState).lastPressTime + 300 ≤ 1000
      ∧ 1200 < 1000 + 300)
    ∧ ((Classifier.runButtons ⟨0, false, false, 0, 500⟩
          [(1000, true), (1100, false), (1200, true), (1300, false), (1400, false)]).2.map
        (fun b => b.testBit 1) = [false, false, false, true, false])
    ∧ ((Classifier.runButtons ⟨0, false, false, 0, 500⟩ [(1000, true), (1100, false)]).2.map
        (fun b => b.testBit 1) = [false, false]) :=
  ⟨⟨rfl, by decide, by decide⟩,
   (claim_C6 ⟨0, false, false, 0, 500⟩ 1000 1100 1200 1300 1400 rfl (by decide) (by decide)).1,
   (claim_C6 ⟨0, false, false, 0, 500⟩ 1000 1100 1200 1300 1400 rfl (by decide) (by decide)).2⟩

/-- C4: `ui_launch_app` returns `ESP_ERR_NOT_FOUND` when no registered app
has the identifier and `ESP_ERR_NO_MEM` when the id resolves but the scene
stack is full; in both failure cases the state (hence the stack depth) is
unchanged and no enter callback is invoked (empty trace); otherwise it
pushes the app scene and invokes the app's enter callback exactly once
(when the owner supplied one). -/
theorem claim_C4 (s : UI.UIState) (app_id : String) :
    (s.apps.find? (fun a => a.id == app_id) = none →
      UI.ui_launch_app s app_id = (s, [], UI.EspErr.notFound))
    ∧ (∀ app, s.apps.find? (fun a => a.id == app_id) = some app →
        (s.sceneStack.length ≥ UI.UI_MAX_SCENE_STACK →
          UI.ui_launch_app s app_id = (s, [], UI.EspErr.noMem))
        ∧ (s.sceneStack.length < UI.UI_MAX_SCENE_STACK →
          UI.ui_launch_app s app_id =
            ({ s with sceneStack := UI.Scene.app app :: s.sceneStack },
             if app.hasOnEnter then [UI.Ev.appEnter app.id] else [],
             UI.EspErr.ok))) := by
  constructor
  · intro h
    unfold UI.ui_launch_app
    rw [h]
  · intro app h
    constructor
    · intro hfull
      unfold UI.ui_launch_app
      rw [h]
      simp [hfull]
    · intro hroom
      unfold UI.ui_launch_app
      rw [h]
      simp [Nat.not_le.mpr hroom]

/-- Witness for C4: with only "notes" registered on a fresh stack,
launching "ghost" fails with NotFound and no state change, and launching
"notes" pushes it and fires its enter callback once. -/
theorem claim_C4_witness :
    (UI.regState.apps.find? (fun a => a.id == "ghost") = none
      ∧ UI.ui_launch_app UI.regState "ghost" = (UI.regState, [], UI.EspErr.notFound))
    ∧ UI.ui_launch_app UI.regState "notes" =
        ({ UI.regState with
           sceneStack := [UI.Scene.app UI.notesApp, UI.Scene.menu] },
         [UI.Ev.appEnter "notes"], UI.EspErr.ok) := by
  refine ⟨⟨by decide, ?_⟩, ?_⟩
  · exact (claim_C4 UI.regState "ghost").1 (by decide)
  · have h := ((claim_C4 UI.regState "notes").2 UI.notesApp (by decide)).2 (by decide)
    rw [h]
    decide

/-- C8: once a notification is showing, `ui_tick` clears it exactly when
the elapsed time since its show-time exceeds the configured duration
(3000 ms when `duration_ms` is 0): it is cleared as soon as that holds and
never before, with no user input involved. -/
theorem claim_C8 (s : UI.UIState) (now dt : Nat) (h : s.notify.active = true) :
    (UI.ui_tick s now dt).1.notify.active = false ↔
      (if s.notify.notif.duration_ms ≠ 0 then s.notify.notif.duration_ms else 3000) <
        now - s.notify.show_time := by
  unfold UI.ui_tick UI.ui_notify_dismiss
  simp only [h]
  split_ifs <;> simp_all <;> omega

/-- Witness for C8: a default-duration (3000 ms) notification shown at time
0 is still active at a tick at 3000 ms and cleared at a tick at 3001 ms. -/
theorem claim_C8_witness :
    ({ UI.regState with notify := ⟨true, UI.exNotif, 0, 0⟩ } :
        UI.UIState).notify.active = true
    ∧ ¬(UI.ui_tick { UI.regState with notify := ⟨true, UI.exNotif, 0, 0⟩ }
        3000 10).1.notify.active = false
    ∧ (UI.ui_tick { UI.regState with notify := ⟨true, UI.exNotif, 0, 0⟩ }
        3001 10).1.notify.active = false :=
  ⟨rfl,
   fun hcl => absurd ((claim_C8 { UI.regState with notify := ⟨true, UI.exNotif, 0, 0⟩ }
     3000 10 rfl).mp hcl) (by decide),
   (claim_C8 { UI.regState with notify := ⟨true, UI.exNotif, 0, 0⟩ } 3001 10 rfl).mpr
     (by decide)⟩

/-- C9, counterexample: with the unread counter already at 255, a valid
`ui_notify` call succeeds yet leaves the counter at 255 — it does not
increment "regardless of the counter's current value". -/
theorem claim_C9_counterexample :
    (UI.ui_notify { UI.regState with status_unread := 255 } 0 UI.exNotif).2 =
      UI.EspErr.ok
    ∧ (UI.ui_notify { UI.regState with status_unread := 255 } 0
        UI.exNotif).1.status_unread = 255 := by
  constructor <;> rfl

/-- C9 as amended: every successful `ui_notify` call increments the
unread-notifications counter by exactly one while it is below 255 and
saturates it at 255 otherwise; and the notification component itself
(`ui_notify`, `ui_notify_dismiss`, and the auto-clear inside `ui_tick`)
never decrements or resets the counter. -/
theorem claim_C9_amended (s : UI.UIState) (now dt : Nat) (n : UI.Notification) :
    ((UI.ui_notify s now n).2 = UI.EspErr.ok →
      (UI.ui_notify s now n).1.status_unread =
        (if s.status_unread < 255 then s.status_unread + 1 else s.status_unread))
    ∧ s.status_unread ≤ (UI.ui_notify s now n).1.status_unread
    ∧ (UI.ui_notify_dismiss s).status_unread = s.status_unread
    ∧ (UI.ui_tick s now dt).1.status_unread = s.status_unread := by
  refine ⟨?_, ?_, rfl, ?_⟩
  · intro h
    unfold UI.ui_notify at h ⊢
    split_ifs at h ⊢ <;> simp_all
  · unfold UI.ui_notify
    split_ifs <;> simp
  · simp only [UI.ui_tick, UI.ui_notify_dismiss]
    split_ifs <;> rfl

/-- Witness for C9 as amended: a successful notify from counter 3 yields 4;
dismissal and a tick leave the counter alone. -/
theorem claim_C9_amended_witness :
    (UI.ui_notify { UI.regState with status_unread := 3 } 0 UI.exNotif).2 =
      UI.EspErr.ok
    ∧ (UI.ui_notify { UI.regState with status_unread := 3 } 0
        UI.exNotif).1.status_unread =
      (if ({ UI.regState with status_unread := 3 } : UI.UIState).status_unread < 255
       then ({ UI.regState with status_unread := 3 } : UI.UIState).status_unread + 1
       else ({ UI.regState with status_unread := 3 } : UI.UIState).status_unread)
    ∧ (UI.ui_notify_dismiss { UI.regState with status_unread := 3 }).status_unread = 3
    ∧ (UI.ui_tick { UI.regState with status_unread := 3 } 50 10).1.status_unread = 3 :=
  ⟨by decide,
   (claim_C9_amended { UI.regState with status_unread := 3 } 0 10 UI.exNotif).1 (by decide),
   (claim_C9_amended { UI.regState with status_unread := 3 } 0 10 UI.exNotif).2.2.1,
   (claim_C9_amended { UI.regState with status_unread := 3 } 50 10 UI.exNotif).2.2.2⟩


/-- Helper: the OSK navigation block only moves the key cursor and its
debounce timestamp. -/
theorem handle_osk_nav_frame (s : UI.UIState) (now : Nat) (x y : Int) :
    (UI.handle_osk_nav s now x y).sceneStack = s.sceneStack
    ∧ (UI.handle_osk_nav s now x y).dialog = s.dialog
    ∧ (UI.handle_osk_nav s now x y).menu_selected = s.menu_selected
    ∧ (UI.handle_osk_nav s now x y).notify = s.notify
    ∧ (UI.handle_osk_nav s now x y).osk.active = s.osk.active
    ∧ (UI.handle_osk_nav s now x y).osk.config = s.osk.config
    ∧ (UI.handle_osk_nav s now x y).osk.buffer = s.osk.buffer
    ∧ (UI.handle_osk_nav s now x y).osk.cursor = s.osk.cursor
    ∧ (UI.handle_osk_nav s now x y).osk_last_press = s.osk_last_press := by
  simp only [UI.handle_osk_nav]
  split_ifs <;> simp

/-- Helper: the OSK key-activation block only changes the OSK slot and its
debounce timestamp, and every event it emits is an OSK-callback
invocation, never a Scene-level call. -/
theorem handle_osk_press_frame (s : UI.UIState) (now : Nat) (buttons : Nat) :
    (UI.handle_osk_press s now buttons).1.sceneStack = s.sceneStack
    ∧ (UI.handle_osk_press s now buttons).1.dialog = s.dialog
    ∧ (UI.handle_osk_press s now buttons).1.menu_selected = s.menu_selected
    ∧ (UI.handle_osk_press s now buttons).1.notify = s.notify
    ∧ (UI.handle_osk_press s now buttons).1.osk.config = s.osk.config
    ∧ ∀ e ∈ (UI.handle_osk_press s now buttons).2, UI.Ev.isSceneCall e = false := by
  simp only [UI.handle_osk_press]
  split_ifs <;> simp_all [UI.Ev.isSceneCall]

/-- Helper: `handle_osk_input` never touches the scene stack, the dialog
slot, the menu cursor, the notification, or the OSK configuration, and
emits no Scene-level callback invocation. -/
theorem handle_osk_input_frame (s : UI.UIState) (now : Nat) (x y : Int) (buttons : Nat) :
    (UI.handle_osk_input s now x y buttons).1.sceneStack = s.sceneStack
    ∧ (UI.handle_osk_input s now x y buttons).1.dialog = s.dialog
    ∧ (UI.handle_osk_input s now x y buttons).1.menu_selected = s.menu_selected
    ∧ (UI.handle_osk_input s now x y buttons).1.notify = s.notify
    ∧ (UI.handle_osk_input s now x y buttons).1.osk.config = s.osk.config
    ∧ ∀ e ∈ (UI.handle_osk_input s now x y buttons).2, UI.Ev.isSceneCall e = false := by
  have hn := handle_osk_nav_frame s now x y
  have hp := handle_osk_press_frame (UI.handle_osk_nav s now x y) now buttons
  unfold UI.handle_osk_input
  exact ⟨hp.1.trans hn.1, hp.2.1.trans hn.2.1, hp.2.2.1.trans hn.2.2.1,
    hp.2.2.2.1.trans hn.2.2.2.1, hp.2.2.2.2.1.trans hn.2.2.2.2.2.1,
    hp.2.2.2.2.2⟩

/-- Helper: the OSK key-activation block preserves the buffer invariant —
cursor equals buffer length, buffer length within the effective maximum of
the (unchanged) configuration. -/
theorem handle_osk_press_buflen (s : UI.UIState) (now : Nat) (buttons : Nat)
    (hcur : s.osk.cursor = s.osk.buffer.length)
    (hlen : s.osk.buffer.length ≤ UI.osk_max_len s.osk.config) :
    (UI.handle_osk_press s now buttons).1.osk.cursor =
      (UI.handle_osk_press s now buttons).1.osk.buffer.length
    ∧ (UI.handle_osk_press s now buttons).1.osk.buffer.length ≤
      UI.osk_max_len s.osk.config := by
  simp only [UI.handle_osk_press]
  split_ifs <;> simp_all [List.length_take] <;> omega

/-- Helper: `handle_osk_input` preserves the buffer invariant. -/
theorem handle_osk_input_buflen (s : UI.UIState) (now : Nat) (x y : Int) (buttons : Nat)
    (hcur : s.osk.cursor = s.osk.buffer.length)
    (hlen : s.osk.buffer.length ≤ UI.osk_max_len s.osk.config) :
    (UI.handle_osk_input s now x y buttons).1.osk.cursor =
      (UI.handle_osk_input s now x y buttons).1.osk.buffer.length
    ∧ (UI.handle_osk_input s now x y buttons).1.osk.buffer.length ≤
      UI.osk_max_len s.osk.config := by
  have hn := handle_osk_nav_frame s now x y
  unfold UI.handle_osk_input
  have h1 : (UI.handle_osk_nav s now x y).osk.cursor =
      (UI.handle_osk_nav s now x y).osk.buffer.length := by
    rw [hn.2.2.2.2.2.2.2.1, hn.2.2.2.2.2.2.1, hcur]
  have h2 : (UI.handle_osk_nav s now x y).osk.buffer.length ≤
      UI.osk_max_len (UI.handle_osk_nav s now x y).osk.config := by
    rw [hn.2.2.2.2.2.2.1, hn.2.2.2.2.2.1]
    exact hlen
  have hp := handle_osk_press_buflen (UI.handle_osk_nav s now x y) now buttons h1 h2
  refine ⟨hp.1, ?_⟩
  have := hp.2
  rwa [hn.2.2.2.2.2.1] at this

/-- Helper: with no Home/Back rising edge and no active notification, an
event delivered while the OSK is active is routed to `handle_osk_input`
(on the state with the edge bookkeeping updated). -/
theorem ui_input_osk_route (s : UI.UIState) (now : Nat) (x y : Int) (buttons : Nat)
    (h : s.osk.active = true)
    (hH : UI.pressedOf s buttons &&& UI.UI_BTN_HOME = 0)
    (hB : UI.pressedOf s buttons &&& UI.UI_BTN_BACK = 0)
    (hNP : ¬(s.notify.active = true ∧ UI.pressedOf s buttons &&& UI.UI_BTN_PRESS ≠ 0)) :
    UI.ui_input s now x y buttons =
      UI.handle_osk_input
        { s with last_buttons := buttons % 256, last_input_time := now } now x y buttons := by
  simp only [UI.ui_input]
  split_ifs with h1 h2 h3 h4 <;> simp_all

/-- Helper: a Home rising edge while the OSK is active cancels the OSK:
the slot is deactivated and the completion callback is invoked with a null
text and `confirmed = false`; nothing else changes. -/
theorem ui_input_osk_home (s : UI.UIState) (now : Nat) (x y : Int) (buttons : Nat)
    (h : s.osk.active = true)
    (hH : UI.pressedOf s buttons &&& UI.UI_BTN_HOME ≠ 0) :
    UI.ui_input s now x y buttons =
      ({ s with last_buttons := buttons % 256, last_input_time := now, osk := { s.osk with active := false } },
       if s.osk.config.hasCallback then [UI.Ev.oskCallback none false] else []) := by
  simp only [UI.ui_input]
  split_ifs with h1 h2 <;> simp_all

/-- Helper: a Back rising edge (with no Home edge) while the OSK is active
cancels the OSK the same way. -/
theorem ui_input_osk_back (s : UI.UIState) (now : Nat) (x y : Int) (buttons : Nat)
    (h : s.osk.active = true)
    (hH : UI.pressedOf s buttons &&& UI.UI_BTN_HOME = 0)
    (hB : UI.pressedOf s buttons &&& UI.UI_BTN_BACK ≠ 0) :
    UI.ui_input s now x y buttons =
      ({ s with last_buttons := buttons % 256, last_input_time := now, osk := { s.osk with active := false } },
       if s.osk.config.hasCallback then [UI.Ev.oskCallback none false] else []) := by
  simp only [UI.ui_input]
  split_ifs with h1 h2 <;> simp_all

/-- Helper: a press edge while the OSK and a notification are both active
is consumed by the notification (tap callback plus dismissal); the OSK is
untouched. -/
theorem ui_input_notify_first (s : UI.UIState) (now : Nat) (x y : Int) (buttons : Nat)
    (hH : UI.pressedOf s buttons &&& UI.UI_BTN_HOME = 0)
    (hB : UI.pressedOf s buttons &&& UI.UI_BTN_BACK = 0)
    (hN : s.notify.active = true)
    (hP : UI.pressedOf s buttons &&& UI.UI_BTN_PRESS ≠ 0) :
    UI.ui_input s now x y buttons =
      ({ s with last_buttons := buttons % 256, last_input_time := now, notify := { s.notify with active := false } },
       if s.notify.notif.hasOnTap then [UI.Ev.notifyTap] else []) := by
  simp only [UI.ui_input, UI.ui_notify_dismiss]
  split_ifs with h1 h2 h3 <;> simp_all

/-- C1, counterexample to the precedence clause: with the OSK active and a
notification showing, a primary press edge is consumed by the
notification-dismiss step (tap callback fired, notification cleared), not
by the OSK — the notification sits ahead of the OSK in `ui_input`'s
routing, contradicting the claimed OSK > Dialog > Notification order.  The
OSK slot (and everything else) is untouched and no OSK event is emitted. -/
theorem claim_C1_counterexample :
    UI.ui_input UI.oskNotifState 1000 0 0 1 =
      ({ UI.oskNotifState with last_buttons := 1, last_input_time := 1000, notify := ⟨false, UI.exNotif, 0, 0⟩ },
       [UI.Ev.notifyTap]) := by
  rfl

/-- C1 as amended: while the OSK is active, the underlying Scene's input
callback is never invoked and the scene stack, the dialog slot and the menu
cursor are untouched (Home/Back cancel the OSK rather than navigate) — but
a primary press edge while a notification is showing is consumed by the
notification dismissal ahead of the OSK; events reaching the OSK itself
never produce Scene-level calls. -/
theorem claim_C1_amended (s : UI.UIState) (now : Nat) (x y : Int) (buttons : Nat)
    (h : s.osk.active = true) :
    (UI.ui_input s now x y buttons).1.sceneStack = s.sceneStack
    ∧ (UI.ui_input s now x y buttons).1.dialog = s.dialog
    ∧ (UI.ui_input s now x y buttons).1.menu_selected = s.menu_selected
    ∧ ∀ e ∈ (UI.ui_input s now x y buttons).2, UI.Ev.isSceneCall e = false := by
  by_cases hH : UI.pressedOf s buttons &&& UI.UI_BTN_HOME ≠ 0
  · rw [ui_input_osk_home s now x y buttons h hH]
    refine ⟨rfl, rfl, rfl, ?_⟩
    intro e he
    split_ifs at he <;> simp_all [UI.Ev.isSceneCall]
  · have hH0 : UI.pressedOf s buttons &&& UI.UI_BTN_HOME = 0 := not_ne_iff.mp hH
    by_cases hB : UI.pressedOf s buttons &&& UI.UI_BTN_BACK ≠ 0
    · rw [ui_input_osk_back s now x y buttons h hH0 hB]
      refine ⟨rfl, rfl, rfl, ?_⟩
      intro e he
      split_ifs at he <;> simp_all [UI.Ev.isSceneCall]
    · have hB0 : UI.pressedOf s buttons &&& UI.UI_BTN_BACK = 0 := not_ne_iff.mp hB
      by_cases hNP : s.notify.active = true ∧ UI.pressedOf s buttons &&& UI.UI_BTN_PRESS ≠ 0
      · rw [ui_input_notify_first s now x y buttons hH0 hB0 hNP.1 hNP.2]
        refine ⟨rfl, rfl, rfl, ?_⟩
        intro e he
        split_ifs at he <;> simp_all [UI.Ev.isSceneCall]
      · rw [ui_input_osk_route s now x y buttons h hH0 hB0 hNP]
        have hf := handle_osk_input_frame
          { s with last_buttons := buttons % 256, last_input_time := now } now x y buttons
        exact ⟨hf.1, hf.2.1, hf.2.2.1, hf.2.2.2.2.2⟩

/-- Witness for C1 as amended: a character-key press into an active OSK
session leaves the scene stack, dialog and menu untouched and produces no
Scene-level callback. -/
theorem claim_C1_amended_witness :
    UI.oskFullState.osk.active = true
    ∧ (UI.ui_input UI.oskFullState 1000 0 0 1).1.sceneStack = UI.oskFullState.sceneStack
    ∧ (UI.ui_input UI.oskFullState 1000 0 0 1).1.dialog = UI.oskFullState.dialog
    ∧ (UI.ui_input UI.oskFullState 1000 0 0 1).1.menu_selected = UI.oskFullState.menu_selected
    ∧ ∀ e ∈ (UI.ui_input UI.oskFullState 1000 0 0 1).2, UI.Ev.isSceneCall e = false :=
  ⟨rfl,
   (claim_C1_amended UI.oskFullState 1000 0 0 1 rfl).1,
   (claim_C1_amended UI.oskFullState 1000 0 0 1 rfl).2.1,
   (claim_C1_amended UI.oskFullState 1000 0 0 1 rfl).2.2.1,
   (claim_C1_amended UI.oskFullState 1000 0 0 1 rfl).2.2.2⟩

/-- Helper: with no horizontal deflection past the threshold, the dialog
navigation block is the identity. -/
theorem handle_dialog_nav_id (s : UI.UIState) (now : Nat) (x : Int)
    (hx1 : ¬(x > 30)) (hx2 : ¬(x < -30)) :
    UI.handle_dialog_nav s now x = s := by
  simp only [UI.handle_dialog_nav]
  split_ifs <;> simp_all

/-- Helper: a debounce-accepted press on a dialog invokes the selected
button's callback (when supplied) and closes the dialog. -/
theorem handle_dialog_press_go (s : UI.UIState) (now : Nat) (buttons : Nat)
    (hp : buttons &&& UI.UI_BTN_PRESS ≠ 0)
    (hdb : now - s.dialog_last_press > 300) :
    UI.handle_dialog_press s now buttons =
      ({ s with dialog := { s.dialog with active := false }, dialog_last_press := now },
       if (s.dialog.dialog.buttons.getD s.dialog.selected ⟨false⟩).hasOnClick
       then [UI.Ev.dialogClick s.dialog.selected] else []) := by
  simp only [UI.handle_dialog_press]
  split_ifs <;> simp_all

/-- Helper: with no deflection past the threshold, the OSK navigation block
is the identity. -/
theorem handle_osk_nav_id (s : UI.UIState) (now : Nat) (x y : Int)
    (hx1 : ¬(x > 30)) (hx2 : ¬(x < -30)) (hy1 : ¬(y > 30)) (hy2 : ¬(y < -30)) :
    UI.handle_osk_nav s now x y = s := by
  simp only [UI.handle_osk_nav]
  split_ifs <;> simp_all

/-- Helper: a debounce-accepted press on the confirm key deactivates the
OSK and invokes the callback with the buffer and `confirmed = true`. -/
theorem handle_osk_press_confirm (s : UI.UIState) (now : Nat) (buttons : Nat)
    (hp : buttons &&& UI.UI_BTN_PRESS ≠ 0)
    (hdb : now - s.osk_last_press > 200)
    (hkey : (UI.osk_keys.getD s.osk.key_row []).getD s.osk.key_col ' ' = '>') :
    UI.handle_osk_press s now buttons =
      ({ s with osk := { s.osk with active := false }, osk_last_press := now },
       if s.osk.config.hasCallback then [UI.Ev.oskCallback (some s.osk.buffer) true]
       else []) := by
  simp only [UI.handle_osk_press]
  split_ifs <;> simp_all

/-- Helper: a debounce-accepted press on a character key (neither backspace
nor confirm) appends it exactly when the cursor is below the effective
maximum length — the 128-byte buffer is not an additional clamp. -/
theorem handle_osk_press_append (s : UI.UIState) (now : Nat) (buttons : Nat)
    (hp : buttons &&& UI.UI_BTN_PRESS ≠ 0)
    (hdb : now - s.osk_last_press > 200)
    (hk1 : (UI.osk_keys.getD s.osk.key_row []).getD s.osk.key_col ' ' ≠ '<')
    (hk2 : (UI.osk_keys.getD s.osk.key_row []).getD s.osk.key_col ' ' ≠ '>') :
    (UI.handle_osk_press s now buttons).1.osk.buffer =
      (if s.osk.cursor < UI.osk_max_len s.osk.config
       then s.osk.buffer ++ [(UI.osk_keys.getD s.osk.key_row []).getD s.osk.key_col ' ']
       else s.osk.buffer) := by
  simp only [UI.handle_osk_press]
  split_ifs <;> simp_all

/-- Helper: with OSK inactive, dialog active, no Home/Back edge and no
notification press, the event is routed to `handle_dialog_input`. -/
theorem ui_input_dialog_route (s : UI.UIState) (now : Nat) (x y : Int) (buttons : Nat)
    (hosk : s.osk.active = false) (hd : s.dialog.active = true)
    (hH : UI.pressedOf s buttons &&& UI.UI_BTN_HOME = 0)
    (hB : UI.pressedOf s buttons &&& UI.UI_BTN_BACK = 0)
    (hNP : ¬(s.notify.active = true ∧ UI.pressedOf s buttons &&& UI.UI_BTN_PRESS ≠ 0)) :
    UI.ui_input s now x y buttons =
      UI.handle_dialog_input
        { s with last_buttons := buttons % 256, last_input_time := now } now x y buttons := by
  simp only [UI.ui_input]
  split_ifs <;> simp_all

/-- Helper: a Home rising edge with the OSK inactive and a dialog active
closes the dialog without invoking any callback. -/
theorem ui_input_dialog_home (s : UI.UIState) (now : Nat) (x y : Int) (buttons : Nat)
    (hosk : s.osk.active = false) (hd : s.dialog.active = true)
    (hH : UI.pressedOf s buttons &&& UI.UI_BTN_HOME ≠ 0) :
    UI.ui_input s now x y buttons =
      ({ s with last_buttons := buttons % 256, last_input_time := now, dialog := { s.dialog with active := false } },
       []) := by
  simp only [UI.ui_input, UI.ui_close_dialog]
  split_ifs <;> simp_all

/-- Helper: a Back rising edge (with no Home edge) with the OSK inactive
and a dialog active closes the dialog without invoking any callback. -/
theorem ui_input_dialog_back (s : UI.UIState) (now : Nat) (x y : Int) (buttons : Nat)
    (hosk : s.osk.active = false) (hd : s.dialog.active = true)
    (hH : UI.pressedOf s buttons &&& UI.UI_BTN_HOME = 0)
    (hB : UI.pressedOf s buttons &&& UI.UI_BTN_BACK ≠ 0) :
    UI.ui_input s now x y buttons =
      ({ s with last_buttons := buttons % 256, last_input_time := now, dialog := { s.dialog with active := false } },
       []) := by
  simp only [UI.ui_input, UI.ui_close_dialog]
  split_ifs <;> simp_all

/-- C2, counterexample to "invoked exactly once on forced dismissal": a
Home rising edge while a dialog is active (its buttons all carrying
`on_click` callbacks) clears the dialog with an empty trace — zero callback
invocations, not exactly one. -/
theorem claim_C2_counterexample :
    UI.ui_input UI.dialogState 500 0 0 8 =
      ({ UI.dialogState with last_buttons := 8, last_input_time := 500, dialog := ⟨false, ⟨[⟨true⟩, ⟨true⟩], 0⟩, 0⟩ },
       []) := by
  rfl

/-- C2 as amended: the OSK's completion callback is invoked exactly once
when the OSK ends — by confirm, or by Home/Back cancel — and the overlay
is cleared after that single invocation; a dialog invokes the selected
button's `on_click` exactly once (when supplied) only when confirmed by a
primary press, while Home/Back forced dismissal closes it without invoking
any callback, and replacing an active Dialog or OSK with a new instance
invokes no callback for the replaced instance. -/
theorem claim_C2_amended (s : UI.UIState) (now : Nat) (x y : Int) (buttons : Nat)
    (d : UI.Dialog) (cfg : UI.OskConfig) :
    (s.osk.active = true → s.osk.config.hasCallback = true →
      UI.pressedOf s buttons &&& UI.UI_BTN_HOME ≠ 0 →
      (UI.ui_input s now x y buttons).2 = [UI.Ev.oskCallback none false]
      ∧ (UI.ui_input s now x y buttons).1.osk.active = false)
    ∧ (s.osk.active = true → s.osk.config.hasCallback = true →
      UI.pressedOf s buttons &&& UI.UI_BTN_HOME = 0 →
      UI.pressedOf s buttons &&& UI.UI_BTN_BACK ≠ 0 →
      (UI.ui_input s now x y buttons).2 = [UI.Ev.oskCallback none false]
      ∧ (UI.ui_input s now x y buttons).1.osk.active = false)
    ∧ (s.osk.active = true → s.osk.config.hasCallback = true →
      UI.pressedOf s buttons &&& UI.UI_BTN_HOME = 0 →
      UI.pressedOf s buttons &&& UI.UI_BTN_BACK = 0 →
      s.notify.active = false →
      buttons &&& UI.UI_BTN_PRESS ≠ 0 →
      now - s.osk_last_press > 200 →
      ¬(x > 30) → ¬(x < -30) → ¬(y > 30) → ¬(y < -30) →
      (UI.osk_keys.getD s.osk.key_row []).getD s.osk.key_col ' ' = '>' →
      (UI.ui_input s now x y buttons).2 = [UI.Ev.oskCallback (some s.osk.buffer) true]
      ∧ (UI.ui_input s now x y buttons).1.osk.active = false)
    ∧ (s.osk.active = false → s.dialog.active = true →
      UI.pressedOf s buttons &&& UI.UI_BTN_HOME = 0 →
      UI.pressedOf s buttons &&& UI.UI_BTN_BACK = 0 →
      s.notify.active = false →
      buttons &&& UI.UI_BTN_PRESS ≠ 0 →
      now - s.dialog_last_press > 300 →
      ¬(x > 30) → ¬(x < -30) →
      (UI.ui_input s now x y buttons).2 =
        (if (s.dialog.dialog.buttons.getD s.dialog.selected ⟨false⟩).hasOnClick
         then [UI.Ev.dialogClick s.dialog.selected] else [])
      ∧ (UI.ui_input s now x y buttons).1.dialog.active = false)
    ∧ (s.osk.active = false → s.dialog.active = true →
      UI.pressedOf s buttons &&& UI.UI_BTN_HOME ≠ 0 →
      (UI.ui_input s now x y buttons).2 = []
      ∧ (UI.ui_input s now x y buttons).1.dialog.active = false)
    ∧ (s.osk.active = false → s.dialog.active = true →
      UI.pressedOf s buttons &&& UI.UI_BTN_HOME = 0 →
      UI.pressedOf s buttons &&& UI.UI_BTN_BACK ≠ 0 →
      (UI.ui_input s now x y buttons).2 = []
      ∧ (UI.ui_input s now x y buttons).1.dialog.active = false)
    ∧ ((UI.ui_show_dialog s d).2.1 = [] ∧ (UI.ui_show_osk s cfg).2.1 = []) := by
  refine ⟨?_, ?_, ?_, ?_, ?_, ?_, ?_, ?_⟩
  · intro hosk hcb hH
    rw [ui_input_osk_home s now x y buttons hosk hH]
    simp [hcb]
  · intro hosk hcb hH hB
    rw [ui_input_osk_back s now x y buttons hosk hH hB]
    simp [hcb]
  · intro hosk hcb hH hB hN hp hdb hx1 hx2 hy1 hy2 hkey
    have hNP : ¬(s.notify.active = true ∧
        UI.pressedOf s buttons &&& UI.UI_BTN_PRESS ≠ 0) := by
      simp [hN]
    rw [ui_input_osk_route s now x y buttons hosk hH hB hNP]
    unfold UI.handle_osk_input
    rw [handle_osk_nav_id _ now x y hx1 hx2 hy1 hy2]
    rw [handle_osk_press_confirm
      { s with last_buttons := buttons % 256, last_input_time := now } now buttons hp hdb hkey]
    simp [hcb]
  · intro hosk hd hH hB hN hp hdb hx1 hx2
    have hNP : ¬(s.notify.active = true ∧
        UI.pressedOf s buttons &&& UI.UI_BTN_PRESS ≠ 0) := by
      simp [hN]
    rw [ui_input_dialog_route s now x y buttons hosk hd hH hB hNP]
    unfold UI.handle_dialog_input
    rw [handle_dialog_nav_id _ now x hx1 hx2]
    rw [handle_dialog_press_go
      { s with last_buttons := buttons % 256, last_input_time := now } now buttons hp hdb]
    exact ⟨rfl, rfl⟩
  · intro hosk hd hH
    rw [ui_input_dialog_home s now x y buttons hosk hd hH]
    exact ⟨rfl, rfl⟩
  · intro hosk hd hH hB
    rw [ui_input_dialog_back s now x y buttons hosk hd hH hB]
    exact ⟨rfl, rfl⟩
  · unfold UI.ui_show_dialog
    split_ifs <;> rfl
  · unfold UI.ui_show_osk
    split_ifs <;> rfl

/-- Witness for C2 as amended: a Home edge cancels an active OSK with one
callback invocation; a confirm-key press ends an OSK session with one
confirmed callback; a press confirms a dialog with one button callback; a
Home edge and a Back edge each close a dialog with no callback; showing
overlays emits no callback. -/
theorem claim_C2_amended_witness :
    ((UI.ui_input UI.oskFullState 1000 0 0 8).2 = [UI.Ev.oskCallback none false]
      ∧ (UI.ui_input UI.oskFullState 1000 0 0 8).1.osk.active = false)
    ∧ ((UI.ui_input { UI.regState with osk := ⟨true, UI.exOskCfg5, ['A'], 1, 3, 9⟩ } 1000 0 0 1).2 =
        [UI.Ev.oskCallback (some ['A']) true]
      ∧ (UI.ui_input { UI.regState with osk := ⟨true, UI.exOskCfg5, ['A'], 1, 3, 9⟩ } 1000 0 0 1).1.osk.active = false)
    ∧ ((UI.ui_input UI.dialogState 500 0 0 1).2 = [UI.Ev.dialogClick 0]
      ∧ (UI.ui_input UI.dialogState 500 0 0 1).1.dialog.active = false)
    ∧ ((UI.ui_input UI.dialogState 500 0 0 8).2 = []
      ∧ (UI.ui_input UI.dialogState 500 0 0 8).1.dialog.active = false)
    ∧ ((UI.ui_input UI.dialogState 500 0 0 16).2 = []
      ∧ (UI.ui_input UI.dialogState 500 0 0 16).1.dialog.active = false)
    ∧ ((UI.ui_show_dialog UI.regState ⟨[⟨true⟩], 0⟩).2.1 = []
      ∧ (UI.ui_show_osk UI.regState UI.exOskCfg).2.1 = []) := by
  refine ⟨?_, ?_, ?_, ?_, ?_, ?_⟩
  · exact (claim_C2_amended UI.oskFullState 1000 0 0 8 ⟨[⟨true⟩], 0⟩ UI.exOskCfg).1
      rfl rfl (by decide)
  · have h := (claim_C2_amended { UI.regState with osk := ⟨true, UI.exOskCfg5, ['A'], 1, 3, 9⟩ }
      1000 0 0 1 ⟨[⟨true⟩], 0⟩ UI.exOskCfg).2.2.1
      rfl rfl (by decide) (by decide) rfl (by decide) (by decide)
      (by decide) (by decide) (by decide) (by decide) (by decide)
    exact h
  · have h := (claim_C2_amended UI.dialogState 500 0 0 1 ⟨[⟨true⟩], 0⟩ UI.exOskCfg).2.2.2.1
      rfl rfl (by decide) (by decide) rfl (by decide) (by decide) (by decide) (by decide)
    exact ⟨h.1.trans (by decide), h.2⟩
  · exact (claim_C2_amended UI.dialogState 500 0 0 8 ⟨[⟨true⟩], 0⟩ UI.exOskCfg).2.2.2.2.1
      rfl rfl (by decide)
  · exact (claim_C2_amended UI.dialogState 500 0 0 16 ⟨[⟨true⟩], 0⟩ UI.exOskCfg).2.2.2.2.2.1
      rfl rfl (by decide) (by decide)
  · exact ⟨(claim_C2_amended UI.regState 0 0 0 0 ⟨[⟨true⟩], 0⟩ UI.exOskCfg).2.2.2.2.2.2.1,
      (claim_C2_amended UI.regState 0 0 0 0 ⟨[⟨true⟩], 0⟩ UI.exOskCfg).2.2.2.2.2.2.2⟩

/-- C10: for an OSK session whose configured `max_length` is at most the
127-character internal capacity (0 meaning 127) and whose initial text fits,
`ui_show_osk` establishes the buffer invariant (cursor = length ≤ effective
max) and every `ui_input` call preserves it with the configuration
untouched — so the buffer length never exceeds `max_length`; moreover the
append guard compares the cursor only against the effective `max_length`,
with no additional clamp from the 128-byte buffer. -/
theorem claim_C10 (s : UI.UIState) (now : Nat) (x y : Int) (buttons : Nat)
    (cfg : UI.OskConfig) :
    (cfg.hasCallback = true → cfg.max_length ≤ 127 →
      (∀ t, cfg.initial_text = some t → t.length ≤ UI.osk_max_len cfg) →
      ((UI.ui_show_osk s cfg).1.osk.cursor = (UI.ui_show_osk s cfg).1.osk.buffer.length
       ∧ (UI.ui_show_osk s cfg).1.osk.buffer.length ≤ UI.osk_max_len cfg))
    ∧ (s.osk.active = true → s.osk.cursor = s.osk.buffer.length →
      s.osk.buffer.length ≤ UI.osk_max_len s.osk.config →
      ((UI.ui_input s now x y buttons).1.osk.config = s.osk.config
       ∧ (UI.ui_input s now x y buttons).1.osk.cursor =
           (UI.ui_input s now x y buttons).1.osk.buffer.length
       ∧ (UI.ui_input s now x y buttons).1.osk.buffer.length ≤
           UI.osk_max_len s.osk.config))
    ∧ (s.osk.active = true → s.notify.active = false →
      UI.pressedOf s buttons &&& UI.UI_BTN_HOME = 0 →
      UI.pressedOf s buttons &&& UI.UI_BTN_BACK = 0 →
      buttons &&& UI.UI_BTN_PRESS ≠ 0 →
      now - s.osk_last_press > 200 →
      ¬(x > 30) → ¬(x < -30) → ¬(y > 30) → ¬(y < -30) →
      (UI.osk_keys.getD s.osk.key_row []).getD s.osk.key_col ' ' ≠ '<' →
      (UI.osk_keys.getD s.osk.key_row []).getD s.osk.key_col ' ' ≠ '>' →
      (UI.ui_input s now x y buttons).1.osk.buffer =
        (if s.osk.cursor < UI.osk_max_len s.osk.config
         then s.osk.buffer ++ [(UI.osk_keys.getD s.osk.key_row []).getD s.osk.key_col ' ']
         else s.osk.buffer)) := by
  refine ⟨?_, ?_, ?_⟩
  · intro hcb hmax hinit
    simp only [UI.ui_show_osk]
    rw [if_neg (by simp [hcb])]
    cases hIT : cfg.initial_text with
    | none => simp [hIT]
    | some t =>
      have := hinit t hIT
      simp [hIT, List.length_take]
      omega
  · intro h hcur hlen
    by_cases hH : UI.pressedOf s buttons &&& UI.UI_BTN_HOME ≠ 0
    · rw [ui_input_osk_home s now x y buttons h hH]
      exact ⟨rfl, hcur, hlen⟩
    · have hH0 : UI.pressedOf s buttons &&& UI.UI_BTN_HOME = 0 := not_ne_iff.mp hH
      by_cases hB : UI.pressedOf s buttons &&& UI.UI_BTN_BACK ≠ 0
      · rw [ui_input_osk_back s now x y buttons h hH0 hB]
        exact ⟨rfl, hcur, hlen⟩
      · have hB0 : UI.pressedOf s buttons &&& UI.UI_BTN_BACK = 0 := not_ne_iff.mp hB
        by_cases hNP : s.notify.active = true ∧
            UI.pressedOf s buttons &&& UI.UI_BTN_PRESS ≠ 0
        · rw [ui_input_notify_first s now x y buttons hH0 hB0 hNP.1 hNP.2]
          exact ⟨rfl, hcur, hlen⟩
        · rw [ui_input_osk_route s now x y buttons h hH0 hB0 hNP]
          have hf := handle_osk_input_frame
            { s with last_buttons := buttons % 256, last_input_time := now } now x y buttons
          have hb := handle_osk_input_buflen
            { s with last_buttons := buttons % 256, last_input_time := now } now x y buttons
            hcur hlen
          exact ⟨hf.2.2.2.2.1, hb.1, hb.2⟩
  · intro h hN hH hB hp hdb hx1 hx2 hy1 hy2 hk1 hk2
    have hNP : ¬(s.notify.active = true ∧
        UI.pressedOf s buttons &&& UI.UI_BTN_PRESS ≠ 0) := by
      simp [hN]
    rw [ui_input_osk_route s now x y buttons h hH hB hNP]
    unfold UI.handle_osk_input
    rw [handle_osk_nav_id _ now x y hx1 hx2 hy1 hy2]
    exact handle_osk_press_append
      { s with last_buttons := buttons % 256, last_input_time := now } now buttons hp hdb hk1 hk2

/-- Witness for C10: opening an OSK with `max_length = 5` and initial text
"AB" establishes the invariant; on a session whose buffer already holds
five characters (the `max_length = 5` scenario) a sixth character-key press
is rejected: the buffer stays exactly "ABCDE", length 5. -/
theorem claim_C10_witness :
    ((UI.ui_show_osk UI.regState ⟨none, some ['A', 'B'], 5, false, true⟩).1.osk.cursor =
        (UI.ui_show_osk UI.regState ⟨none, some ['A', 'B'], 5, false, true⟩).1.osk.buffer.length
      ∧ (UI.ui_show_osk UI.regState ⟨none, some ['A', 'B'], 5, false, true⟩).1.osk.buffer.length ≤
        UI.osk_max_len ⟨none, some ['A', 'B'], 5, false, true⟩)
    ∧ ((UI.ui_input UI.oskFullState 1000 0 0 1).1.osk.config = UI.oskFullState.osk.config
      ∧ (UI.ui_input UI.oskFullState 1000 0 0 1).1.osk.cursor =
          (UI.ui_input UI.oskFullState 1000 0 0 1).1.osk.buffer.length
      ∧ (UI.ui_input UI.oskFullState 1000 0 0 1).1.osk.buffer.length ≤
          UI.osk_max_len UI.oskFullState.osk.config)
    ∧ (UI.ui_input UI.oskFullState 1000 0 0 1).1.osk.buffer = ['A', 'B', 'C', 'D', 'E'] := by
  refine ⟨?_, ?_, ?_⟩
  · exact (claim_C10 UI.regState 0 0 0 0 ⟨none, some ['A', 'B'], 5, false, true⟩).1
      rfl (by decide) (by intro t ht; cases ht; decide)
  · exact (claim_C10 UI.oskFullState 1000 0 0 1 UI.exOskCfg).2.1 rfl rfl (by decide)
  · have h := (claim_C10 UI.oskFullState 1000 0 0 1 UI.exOskCfg).2.2
      rfl rfl (by decide) (by decide) (by decide) (by decide)
      (by decide) (by decide) (by decide) (by decide) (by decide) (by decide)
    exact h.trans (by decide)
